import Mathlib

/-!
Verification of `demo-rust-opentelemetry-stdout` (src/main.rs): a shallow
embedding of the demo program's data model and operations, followed by
theorems settling the specification's claims about it.

The program wires three OpenTelemetry providers (tracer, meter, logger) to
stdout exporters, emits one log record, one span (with a nested log record),
and a batch of counter/histogram observations, then shuts the providers down.
The embedding models:
  - log records as produced by the `tracing` `error!` macro bridged through
    `OpenTelemetryTracingBridge` (the ambient span context becomes an explicit
    parameter);
  - the span built by `emit_span`, with the SDK's `set_attribute`/`add_event`
    as list appends and the randomly generated trace/span identifiers as
    explicit parameters;
  - the SDK's cumulative aggregation of counter and histogram instruments,
    grouping observations by exact match on the attribute key-value set
    (f64 observation values are embedded as rationals; every value the
    program records, and every sum/min/max it induces, is exactly
    representable, so the embedding is exact);
  - the `LazyLock`-initialized `RESOURCE` as an explicit lazy cell threaded
    through the three provider initializers;
  - `main` as a step-trace builder whose `?`-propagation on the three
    shutdown results is an `Except` short-circuit.
-/

namespace DemoOtel

/-- An attribute value: the demo only uses string and integer values
(`event_id = 20` is an integer, everything else a string). -/
inductive AttrValue
  | str (s : String)
  | int (i : Int)
  deriving DecidableEq, Repr

/-- A key-value attribute as carried by log records, spans and events. -/
abbrev Attr := String × AttrValue

/-- Log severities (the demo emits ERROR records; the SDK emits DEBUG
records internally). -/
inductive Severity
  | debug
  | info
  | warn
  | error
  deriving DecidableEq, Repr

/-- A span context: the trace identifier and span identifier of a span
(128-bit and 64-bit values in the SDK, embedded as naturals). -/
structure SpanContext where
  traceId : Nat
  spanId : Nat
  deriving DecidableEq, Repr

/-- A log record as built by the tracing bridge: event name, target scope,
severity, attributes, and the trace/span identifiers of the enclosing span
when one is open (`none` otherwise). -/
structure LogRecord where
  eventName : String
  target : String
  severity : Severity
  attributes : List Attr
  traceContext : Option SpanContext
  deriving DecidableEq, Repr

/-- Embedding of the `tracing` `error!` macro as converted to a Log Record by
`OpenTelemetryTracingBridge`: the `name:`/`target:` metadata become the
record's event name and target, the field list becomes the attribute list,
the severity is ERROR, and the record carries the ambient span context
(passed here explicitly). -/
def tracingError (evName tgt : String) (attrs : List Attr)
    (ctx : Option SpanContext) : LogRecord :=
  { eventName := evName
    target := tgt
    severity := Severity.error
    attributes := attrs
    traceContext := ctx }

/-- `emit_log` from src/main.rs lines 129-138: one `error!` call with fixed
name, target, and the three literal fields `event_id = 20`,
`user_name = "function-emit-log-my-target-user-name"`,
`user_email = "function-emit-log-my-user-email"`. The ambient span context
is an explicit parameter; `main` calls it outside any span, i.e. at `none`. -/
def emit_log (ctx : Option SpanContext) : LogRecord :=
  tracingError "function-emit-log-my-name" "function-emit-log-my-target"
    [("event_id", AttrValue.int 20),
     ("user_name", AttrValue.str "function-emit-log-my-target-user-name"),
     ("user_email", AttrValue.str "function-emit-log-my-user-email")]
    ctx

/-- A timed span event with its own attributes. -/
structure SpanEvent where
  name : String
  attributes : List Attr
  deriving DecidableEq, Repr

/-- A span at close time: name, context (trace/span identifiers), the
attributes set on it, and the ordered events appended to it. -/
structure Span where
  name : String
  context : SpanContext
  attributes : List Attr
  events : List SpanEvent
  deriving DecidableEq, Repr

/-- An instrumentation scope: name, optional version, scope attributes. -/
structure InstrumentationScope where
  name : String
  version : Option String
  attributes : List Attr
  deriving DecidableEq, Repr

/-- SDK `Span::set_attribute`: appends one key-value pair. -/
def Span.set_attribute (s : Span) (kv : Attr) : Span :=
  { s with attributes := s.attributes ++ [kv] }

/-- SDK `Span::add_event`: appends one timed event with its attributes. -/
def Span.add_event (s : Span) (n : String) (attrs : List Attr) : Span :=
  { s with events := s.events ++ [⟨n, attrs⟩] }

/-- SDK `Tracer::in_span` start: a fresh span with the given name and the
identifiers produced by the SDK's id generator, no attributes, no events. -/
def start_span (n : String) (cx : SpanContext) : Span :=
  { name := n, context := cx, attributes := [], events := [] }

/-- The instrumentation scope built at src/main.rs lines 206-210:
name "stdout-example", version "v1", one scope attribute. -/
def emit_span_scope : InstrumentationScope :=
  { name := "stdout-example"
    version := some "v1"
    attributes := [("scope_key", AttrValue.str "scope_value")] }

/-- `emit_span` from src/main.rs lines 202-229: opens "example-span" (the
SDK-generated trace and span identifiers are explicit parameters), sets one
attribute, adds one event with one attribute, and emits one `error!` record
while the span is the ambient context. Returns the span as it is at close
time together with the log record emitted inside it. -/
def emit_span (tid sid : Nat) : Span × LogRecord :=
  let cx : SpanContext := ⟨tid, sid⟩
  let s0 := start_span "example-span" cx
  let s1 := s0.set_attribute ("my-attribute", AttrValue.str "my-value")
  let s2 := s1.add_event "example-event-name"
    [("event_attribute1", AttrValue.str "event_value1")]
  let logRec := tracingError "function-emit-span-my-name"
    "function-emit-span-my-target"
    [("event_id", AttrValue.int 20),
     ("user_name", AttrValue.str "function-emit-span-my-target-user-name"),
     ("user_email", AttrValue.str "function-emit-span-my-user-email")]
    (some cx)
  (s2, logRec)

/-- Metric observation attributes (all string-valued in the demo). -/
abbrev MetricAttrs := List (String × String)

/-- Exact match on the attribute key-value set: the SDK groups observations
by the set of key-value pairs, not by the order they were supplied in. -/
def attrSetEq (a b : MetricAttrs) : Bool :=
  a.all (fun kv => b.contains kv) && b.all (fun kv => a.contains kv)

/-- One aggregated data point of a monotonic cumulative sum (u64 counter). -/
structure SumDataPoint where
  attributes : MetricAttrs
  value : Nat
  deriving DecidableEq, Repr

/-- `Counter::add`: cumulative aggregation — find the data point whose
attribute set matches and add to its running total; otherwise append a new
data point (insertion order of first appearance). -/
def counterAdd : List SumDataPoint → Nat → MetricAttrs → List SumDataPoint
  | [], v, attrs => [⟨attrs, v⟩]
  | p :: ps, v, attrs =>
    if attrSetEq p.attributes attrs then
      ⟨p.attributes, p.value + v⟩ :: ps
    else
      p :: counterAdd ps v attrs

/-- The five `counter.add` calls of `emit_metrics`
(src/main.rs lines 392-426), in program order. -/
def counterOps : List (Nat × MetricAttrs) :=
  [(1, [("name", "apple"), ("color", "green")]),
   (1, [("name", "apple"), ("color", "green")]),
   (2, [("name", "apple"), ("color", "red")]),
   (1, [("name", "banana"), ("color", "yellow")]),
   (11, [("name", "banana"), ("color", "yellow")])]

/-- The counter data points exported after `emit_metrics` runs. -/
def emit_metrics_counter : List SumDataPoint :=
  counterOps.foldl (fun ps va => counterAdd ps va.1 va.2) []

/-- One aggregated histogram data point: count, sum, min, max per unique
attribute set (bucket counts are not needed by any claim). -/
structure HistDataPoint where
  attributes : MetricAttrs
  count : Nat
  sum : ℚ
  min : ℚ
  max : ℚ
  deriving DecidableEq, Repr

/-- `Histogram::record`: cumulative aggregation — the matching data point's
count is incremented and its sum/min/max updated; a first observation for an
attribute set starts a new data point. -/
def histRecord : List HistDataPoint → ℚ → MetricAttrs → List HistDataPoint
  | [], v, attrs => [⟨attrs, 1, v, v, v⟩]
  | p :: ps, v, attrs =>
    if attrSetEq p.attributes attrs then
      ⟨p.attributes, p.count + 1, p.sum + v, Min.min p.min v, Max.max p.max v⟩ :: ps
    else
      p :: histRecord ps v attrs

/-- The five `histogram.record` calls of `emit_metrics`
(src/main.rs lines 429-463), in program order. -/
def histogramOps : List (ℚ × MetricAttrs) :=
  [(1, [("name", "apple"), ("color", "green")]),
   (1, [("name", "apple"), ("color", "green")]),
   (2, [("name", "apple"), ("color", "red")]),
   (1, [("name", "banana"), ("color", "yellow")]),
   (11, [("name", "banana"), ("color", "yellow")])]

/-- The histogram data points exported after `emit_metrics` runs. -/
def emit_metrics_histogram : List HistDataPoint :=
  histogramOps.foldl (fun ps va => histRecord ps va.1 va.2) []

/-- A resource attribute set (all string-valued). -/
abbrev Res := List (String × String)

/-- The value built by `Resource::builder().with_service_name(...).build()`
at src/main.rs lines 46-50: the configured service name together with the
SDK's default telemetry attributes (as shown in the program's documented
output). Total: the construction has no error path. -/
def buildResource : Res :=
  [("service.name", "demo-rust-opentelemetry-stdout"),
   ("telemetry.sdk.name", "opentelemetry"),
   ("telemetry.sdk.language", "rust"),
   ("telemetry.sdk.version", "0.30.0")]

/-- The state of the `LazyLock` holding `RESOURCE`: the cached value once
built, and how many times the initializer has run. -/
structure LazyCell where
  cached : Option Res
  builds : Nat
  deriving DecidableEq, Repr

/-- Dereferencing the `LazyLock`: builds the resource on first use and
caches it; every later access returns the cached value unchanged. -/
def lazyForce (c : LazyCell) : Res × LazyCell :=
  match c.cached with
  | some v => (v, c)
  | none => (buildResource, ⟨some buildResource, c.builds + 1⟩)

/-- The `RESOURCE` cell before any access: nothing built yet. -/
def initialCell : LazyCell := ⟨none, 0⟩

/-- The three signal types. -/
inductive Signal
  | trace
  | metric
  | log
  deriving DecidableEq, Repr

/-- A provider as far as the claims need it: its signal type and the
resource attribute set it was configured with. -/
structure Provider where
  signal : Signal
  resource : Res
  deriving DecidableEq, Repr

/-- `init_tracer_provider` (src/main.rs lines 62-70): clones `RESOURCE`
into the provider's configuration. -/
def init_tracer_provider (c : LazyCell) : Provider × LazyCell :=
  let rc := lazyForce c
  (⟨Signal.trace, rc.1⟩, rc.2)

/-- `init_meter_provider` (src/main.rs lines 81-89): clones `RESOURCE`
into the provider's configuration. -/
def init_meter_provider (c : LazyCell) : Provider × LazyCell :=
  let rc := lazyForce c
  (⟨Signal.metric, rc.1⟩, rc.2)

/-- `init_logger_provider` (src/main.rs lines 98-109): clones `RESOURCE`
into the provider's configuration. -/
def init_logger_provider (c : LazyCell) : Provider × LazyCell :=
  let rc := lazyForce c
  (⟨Signal.log, rc.1⟩, rc.2)

/-- The three provider initializations exactly as `main` performs them,
threading the `RESOURCE` cell from its pristine state. -/
def initAllProviders : (Provider × Provider × Provider) × LazyCell :=
  let tp := init_tracer_provider initialCell
  let mp := init_meter_provider tp.2
  let lp := init_logger_provider mp.2
  ((tp.1, mp.1, lp.1), lp.2)

/-- The observable steps of `main` (src/main.rs lines 508-528). -/
inductive Step
  | initTracer
  | initMeter
  | initLogger
  | emitLog
  | emitSpan
  | emitMetrics
  | shutdownTracer
  | shutdownMeter
  | shutdownLogger
  deriving DecidableEq, Repr

/-- Which of the three provider `shutdown` calls succeed in a given
execution (the only reachable error class). -/
structure ShutdownBehavior where
  tracerOk : Bool
  meterOk : Bool
  loggerOk : Bool
  deriving DecidableEq, Repr

/-- The error type propagated by `?` out of `main`. -/
inductive OtelError
  | shutdownFailure
  deriving DecidableEq, Repr

/-- One provider `shutdown()` call's result. -/
def shutdownResult (ok : Bool) : Except OtelError Unit :=
  if ok then Except.ok () else Except.error OtelError.shutdownFailure

instance : DecidableEq (Except OtelError Unit) := fun a b =>
  match a, b with
  | Except.ok (), Except.ok () => isTrue rfl
  | Except.error OtelError.shutdownFailure,
    Except.error OtelError.shutdownFailure => isTrue rfl
  | Except.ok (), Except.error _ => isFalse (fun h => Except.noConfusion h)
  | Except.error _, Except.ok () => isFalse (fun h => Except.noConfusion h)

/-- `main` (src/main.rs lines 508-528) as a trace builder: initialize the
providers in order tracer, meter, logger; run `emit_log`, `emit_span`,
`emit_metrics`; then shut down tracer, meter, logger, where each `?`
propagates the first shutdown failure and skips the remaining calls.
Returns the list of steps whose calls were actually made, and the
process result. -/
def mainRun (b : ShutdownBehavior) : List Step × Except OtelError Unit :=
  let pre := [Step.initTracer, Step.initMeter, Step.initLogger,
              Step.emitLog, Step.emitSpan, Step.emitMetrics]
  match shutdownResult b.tracerOk with
  | Except.error e => (pre ++ [Step.shutdownTracer], Except.error e)
  | Except.ok _ =>
    match shutdownResult b.meterOk with
    | Except.error e =>
        (pre ++ [Step.shutdownTracer, Step.shutdownMeter], Except.error e)
    | Except.ok _ =>
      match shutdownResult b.loggerOk with
      | Except.error e =>
          (pre ++ [Step.shutdownTracer, Step.shutdownMeter,
                   Step.shutdownLogger], Except.error e)
      | Except.ok _ =>
          (pre ++ [Step.shutdownTracer, Step.shutdownMeter,
                   Step.shutdownLogger], Except.ok ())

/-- The process exit code: 0 when `main` returns `Ok`, nonzero when the
propagated error reaches the runtime. -/
def exitCode (r : Except OtelError Unit) : Nat :=
  match r with
  | Except.ok _ => 0
  | Except.error _ => 1

/-- Position of a step in a trace (the traces of `mainRun` list each step
at most once). -/
def stepIdx (steps : List Step) (s : Step) : Nat :=
  steps.findIdx (fun x => x == s)

/-- Lifecycle check for one entity-emitting step: if the emitting step
occurs, its owning provider's init occurs before it, and its owning
provider's shutdown (if it occurs) occurs after it. -/
def emittedInLifetime (steps : List Step) (ini emit sd : Step) : Bool :=
  !(steps.contains emit) ||
    (steps.contains ini && decide (stepIdx steps ini < stepIdx steps emit) &&
      (!(steps.contains sd) ||
        decide (stepIdx steps emit < stepIdx steps sd)))

/-- The lifecycle invariant over a trace: every emitted entity lies inside
its owning provider's init-to-shutdown window. `emit_log` and the log
record inside `emit_span` are owned by the logger provider, the span by the
tracer provider, and the metric observations by the meter provider. -/
def lifecycleOk (steps : List Step) : Bool :=
  emittedInLifetime steps Step.initLogger Step.emitLog Step.shutdownLogger &&
  emittedInLifetime steps Step.initTracer Step.emitSpan Step.shutdownTracer &&
  emittedInLifetime steps Step.initLogger Step.emitSpan Step.shutdownLogger &&
  emittedInLifetime steps Step.initMeter Step.emitMetrics Step.shutdownMeter

/-- C1 counterexample: the claim says the record's attribute set equals
exactly four literal key-value pairs, but the record built by `emit_log`
carries exactly three attributes, so no four-element attribute set can
equal it. Evaluated at the program's actual call site (no enclosing span). -/
theorem claim1_not_four_attributes :
    (emit_log none).attributes.length = 3 ∧
    ¬ (emit_log none).attributes.length = 4 := by
  constructor
  · rfl
  · decide

/-- C1 (amended): calling `emit_log` constructs exactly one log record whose
severity is ERROR, whose event name is "function-emit-log-my-name", whose
target is "function-emit-log-my-target", and whose attribute set equals
exactly the three literal key-value pairs `event_id = 20`,
`user_name = "function-emit-log-my-target-user-name"`,
`user_email = "function-emit-log-my-user-email"`, whatever the ambient
span context is. -/
theorem claim1_emit_log_record (ctx : Option SpanContext) :
    (emit_log ctx).severity = Severity.error ∧
    (emit_log ctx).eventName = "function-emit-log-my-name" ∧
    (emit_log ctx).target = "function-emit-log-my-target" ∧
    (emit_log ctx).attributes =
      [("event_id", AttrValue.int 20),
       ("user_name", AttrValue.str "function-emit-log-my-target-user-name"),
       ("user_email", AttrValue.str "function-emit-log-my-user-email")] :=
  ⟨rfl, rfl, rfl, rfl⟩

/-- C2: after the five counter increments of `emit_metrics`, the exported
monotonic cumulative counter holds exactly three data points, one per
distinct attribute set, with cumulative values 2 for apple/green, 2 for
apple/red and 12 for banana/yellow; and grouping matches on the attribute
key-value set, not on the order the pairs were supplied in (an increment
with the same pairs in reversed order folds into the existing point). -/
theorem claim2_counter_aggregation :
    emit_metrics_counter =
      [⟨[("name", "apple"), ("color", "green")], 2⟩,
       ⟨[("name", "apple"), ("color", "red")], 2⟩,
       ⟨[("name", "banana"), ("color", "yellow")], 12⟩] ∧
    emit_metrics_counter.length = 3 ∧
    counterAdd [⟨[("name", "apple"), ("color", "green")], 2⟩] 5
        [("color", "green"), ("name", "apple")] =
      [⟨[("name", "apple"), ("color", "green")], 7⟩] := by
  refine ⟨?_, ?_, ?_⟩ <;> rfl

/-- C3: after the five histogram recordings of `emit_metrics`, the exported
histogram holds exactly three data points, one per distinct attribute set:
apple/green with count 2, sum 2, min 1, max 1; apple/red with count 1,
sum 2, min 2, max 2; banana/yellow with count 2, sum 12, min 1, max 11. -/
theorem claim3_histogram_aggregation :
    emit_metrics_histogram =
      [⟨[("name", "apple"), ("color", "green")], 2, 2, 1, 1⟩,
       ⟨[("name", "apple"), ("color", "red")], 1, 2, 2, 2⟩,
       ⟨[("name", "banana"), ("color", "yellow")], 2, 12, 1, 11⟩] ∧
    emit_metrics_histogram.length = 3 := by
  constructor
  · simp [emit_metrics_histogram, histogramOps, histRecord, attrSetEq,
      List.foldl]
    norm_num
  · simp [emit_metrics_histogram, histogramOps, histRecord, attrSetEq,
      List.foldl]

/-- C4: at close time the span produced by `emit_span` carries exactly one
event with exactly one attribute (`event_attribute1 = "event_value1"`),
exactly one span-level attribute (`my-attribute = "my-value"`), and
non-empty (nonzero) trace and span identifiers, and it is opened under the
instrumentation scope named "stdout-example", version "v1", with exactly
one scope attribute. The identifiers come from the SDK's generator, which
never produces the all-zero invalid identifiers — hence the hypotheses. -/
theorem claim4_span_shape (tid sid : Nat) (ht : tid ≠ 0) (hs : sid ≠ 0) :
    (emit_span tid sid).1.attributes =
      [("my-attribute", AttrValue.str "my-value")] ∧
    (emit_span tid sid).1.events =
      [⟨"example-event-name",
        [("event_attribute1", AttrValue.str "event_value1")]⟩] ∧
    (emit_span tid sid).1.context.traceId ≠ 0 ∧
    (emit_span tid sid).1.context.spanId ≠ 0 ∧
    emit_span_scope.name = "stdout-example" ∧
    emit_span_scope.version = some "v1" ∧
    emit_span_scope.attributes =
      [("scope_key", AttrValue.str "scope_value")] :=
  ⟨rfl, rfl, ht, hs, rfl, rfl, rfl⟩

/-- C4 witness: the span-shape theorem instantiated at the concrete
identifiers traceId 1, spanId 1. -/
theorem claim4_span_shape_witness :
    (emit_span 1 1).1.attributes =
      [("my-attribute", AttrValue.str "my-value")] ∧
    (emit_span 1 1).1.events =
      [⟨"example-event-name",
        [("event_attribute1", AttrValue.str "event_value1")]⟩] ∧
    (emit_span 1 1).1.context.traceId ≠ 0 ∧
    (emit_span 1 1).1.context.spanId ≠ 0 ∧
    emit_span_scope.name = "stdout-example" ∧
    emit_span_scope.version = some "v1" ∧
    emit_span_scope.attributes =
      [("scope_key", AttrValue.str "scope_value")] :=
  claim4_span_shape 1 1 (by decide) (by decide)

/-- C5: the log record emitted inside `emit_span`'s open span carries
exactly the enclosing span's trace identifier and span identifier, and the
log record emitted by `emit_log` outside any span scope carries no trace
or span identifier. -/
theorem claim5_log_correlation (tid sid : Nat) :
    (emit_span tid sid).2.traceContext = some (emit_span tid sid).1.context ∧
    (emit_span tid sid).1.context = ⟨tid, sid⟩ ∧
    (emit_log none).traceContext = none :=
  ⟨rfl, rfl, rfl⟩

/-- C6: `main` returns `Ok` (exit code 0) exactly when all three provider
shutdowns succeed; a tracer-provider shutdown failure is propagated
unretried and the meter and logger shutdowns are never invoked; a
meter-provider shutdown failure (tracer having succeeded) is propagated
and the logger shutdown is never invoked. -/
theorem claim6_shutdown_short_circuit (b : ShutdownBehavior) :
    ((mainRun b).2 = Except.ok () ↔
      b.tracerOk = true ∧ b.meterOk = true ∧ b.loggerOk = true) ∧
    (exitCode (mainRun b).2 = 0 ↔ (mainRun b).2 = Except.ok ()) ∧
    (b.tracerOk = false →
      ¬ (mainRun b).1.contains Step.shutdownMeter ∧
      ¬ (mainRun b).1.contains Step.shutdownLogger ∧
      (mainRun b).2 = Except.error OtelError.shutdownFailure) ∧
    (b.tracerOk = true → b.meterOk = false →
      ¬ (mainRun b).1.contains Step.shutdownLogger ∧
      (mainRun b).2 = Except.error OtelError.shutdownFailure) := by
  obtain ⟨t, m, l⟩ := b
  cases t <;> cases m <;> cases l <;> decide

/-- C6 witness: the short-circuit theorem applied at the concrete behaviors
where the tracer shutdown fails, where only the meter shutdown fails, and
where all three succeed. -/
theorem claim6_shutdown_short_circuit_witness :
    (¬ (mainRun ⟨false, true, true⟩).1.contains Step.shutdownMeter ∧
      ¬ (mainRun ⟨false, true, true⟩).1.contains Step.shutdownLogger ∧
      (mainRun ⟨false, true, true⟩).2 =
        Except.error OtelError.shutdownFailure) ∧
    (¬ (mainRun ⟨true, false, true⟩).1.contains Step.shutdownLogger ∧
      (mainRun ⟨true, false, true⟩).2 =
        Except.error OtelError.shutdownFailure) ∧
    exitCode (mainRun ⟨true, true, true⟩).2 = 0 :=
  ⟨(claim6_shutdown_short_circuit ⟨false, true, true⟩).2.2.1 rfl,
   (claim6_shutdown_short_circuit ⟨true, false, true⟩).2.2.2 rfl rfl,
   (claim6_shutdown_short_circuit ⟨true, true, true⟩).2.1.mpr
     ((claim6_shutdown_short_circuit ⟨true, true, true⟩).1.mpr
       ⟨rfl, rfl, rfl⟩)⟩

/-- C7: on the success path `main` executes exactly the fixed sequence:
initialize tracer, meter, logger; emit log, span, metrics; shut down
tracer, meter, logger — no step reordered, repeated or skipped — and
returns `Ok`. -/
theorem claim7_success_path_order :
    mainRun ⟨true, true, true⟩ =
      ([Step.initTracer, Step.initMeter, Step.initLogger,
        Step.emitLog, Step.emitSpan, Step.emitMetrics,
        Step.shutdownTracer, Step.shutdownMeter, Step.shutdownLogger],
       Except.ok ()) := by
  rfl

/-- C8: in every execution of `main` (whatever the shutdown outcomes),
every entity-emitting step lies strictly inside its owning provider's
init-to-shutdown window: each emit happens after the owning provider's
init, and never after the owning provider's shutdown. -/
theorem claim8_lifecycle_invariant (b : ShutdownBehavior) :
    lifecycleOk (mainRun b).1 = true := by
  obtain ⟨t, m, l⟩ := b
  cases t <;> cases m <;> cases l <;> decide

/-- C9: `RESOURCE` starts unconstructed (lazy), is built exactly once
across the three provider initializations of `main`, supplies the very
same attribute set to the tracer, meter and logger providers, its
construction is total (no error path — `buildResource` is a closed value),
and a further access after initialization returns the cached value and
leaves the cell unchanged (read-only thereafter). -/
theorem claim9_resource_built_once :
    initialCell.cached = none ∧
    initialCell.builds = 0 ∧
    initAllProviders.1.1.resource = buildResource ∧
    initAllProviders.1.2.1.resource = buildResource ∧
    initAllProviders.1.2.2.resource = buildResource ∧
    initAllProviders.2.builds = 1 ∧
    initAllProviders.2.cached = some buildResource ∧
    lazyForce initAllProviders.2 = (buildResource, initAllProviders.2) :=
  ⟨rfl, rfl, rfl, rfl, rfl, rfl, rfl, rfl⟩

/-- C10: the log record emitted inside `emit_span`'s open span has severity
ERROR, event name "function-emit-span-my-name", target
"function-emit-span-my-target", and exactly the three literal attributes
`event_id = 20`, `user_name = "function-emit-span-my-target-user-name"`,
`user_email = "function-emit-span-my-user-email"`. -/
theorem claim10_span_inner_log (tid sid : Nat) :
    (emit_span tid sid).2.severity = Severity.error ∧
    (emit_span tid sid).2.eventName = "function-emit-span-my-name" ∧
    (emit_span tid sid).2.target = "function-emit-span-my-target" ∧
    (emit_span tid sid).2.attributes =
      [("event_id", AttrValue.int 20),
       ("user_name", AttrValue.str "function-emit-span-my-target-user-name"),
       ("user_email", AttrValue.str "function-emit-span-my-user-email")] :=
  ⟨rfl, rfl, rfl, rfl⟩

end DemoOtel
